import Mathlib

/-!
Verification of the supervaizer core: lifecycle state machine, job
orchestration (agent.py), case orchestration (case.py), method-registry
validation, and the parameter/encryption gateway.

Python sources present in the repository snapshot: `agent.py`, `case.py`,
`routes.py`, `cli.py`, `a2a.py` plus tests.  The modules `lifecycle.py`,
`job.py`, `parameter.py`, `server.py` and `common.py` are imported by that
code but absent from the snapshot; where a definition below embeds one of
those, its doc comment starts with "Modelled from the spec:" and names the
missing piece.
-/

/-- Shared state enum for stateful entities (spec section 3, used by
`supervaizer.lifecycle` and throughout `agent.py` / `case.py`). -/
inductive EntityStatus where
  | stopped
  | in_progress
  | awaiting
  | completed
  | failed
  | cancelled
  | cancelling
deriving DecidableEq, Repr, Fintype

/-- Shared transition-trigger enum (spec section 3, `supervaizer.lifecycle`). -/
inductive EntityEvents where
  | start_work
  | input_requested
  | input_received
  | successfully_done
  | failed_event
  | cancel_requested
  | cancelled_event
deriving DecidableEq, Repr, Fintype

/-- Error raised by the Lifecycle Engine for a `(status, event)` pair absent
from the transition table; it names both inputs. -/
structure TransitionError where
  from_status : EntityStatus
  event : EntityEvents
deriving DecidableEq, Repr

/-- Modelled from the spec: `supervaizer/lifecycle.py` is not in the snapshot.
The fixed seven-row transition table of spec section 4.1. -/
def transition : EntityStatus → EntityEvents → Option EntityStatus
  | .stopped, .start_work => some .in_progress
  | .in_progress, .input_requested => some .awaiting
  | .awaiting, .input_received => some .in_progress
  | .in_progress, .successfully_done => some .completed
  | .in_progress, .failed_event => some .failed
  | .in_progress, .cancel_requested => some .cancelling
  | .cancelling, .cancelled_event => some .cancelled
  | _, _ => none

/-- Modelled from the spec: `EntityLifecycle.handle_event` (lifecycle.py is
not in the snapshot).  Deterministic function of (current status, event);
any pair absent from the table fails with `TransitionError` naming both
inputs, otherwise the new status is returned. -/
def handle_event (status : EntityStatus) (event : EntityEvents) :
    Except TransitionError EntityStatus :=
  match transition status event with
  | some s => .ok s
  | none => .error ⟨status, event⟩

/-- The seven-row table exactly as spelled out in the spec (section 4.1),
written independently as an association list so that the theorem below
compares `handle_event` against it row by row. -/
def specTransitionTable :
    List ((EntityStatus × EntityEvents) × EntityStatus) :=
  [ ((.stopped, .start_work), .in_progress)
  , ((.in_progress, .input_requested), .awaiting)
  , ((.awaiting, .input_received), .in_progress)
  , ((.in_progress, .successfully_done), .completed)
  , ((.in_progress, .failed_event), .failed)
  , ((.in_progress, .cancel_requested), .cancelling)
  , ((.cancelling, .cancelled_event), .cancelled) ]

/-- C1: the Lifecycle Engine's apply is a deterministic function of
(current status, event) matching the fixed seven-row table exactly; every
pair absent from the table — in particular every pair whose source status
is COMPLETED, FAILED or CANCELLED — fails with a `TransitionError` naming
both inputs. -/
theorem lifecycle_apply_matches_table :
    (∀ s e, handle_event s e =
      match specTransitionTable.lookup (s, e) with
      | some t => .ok t
      | none => .error ⟨s, e⟩) ∧
    (∀ e, handle_event .completed e = .error ⟨.completed, e⟩) ∧
    (∀ e, handle_event .failed e = .error ⟨.failed, e⟩) ∧
    (∀ e, handle_event .cancelled e = .error ⟨.cancelled, e⟩) := by
  refine ⟨fun s e => ?_, fun e => ?_, fun e => ?_, fun e => ?_⟩ <;>
    first
      | (cases s <;> cases e <;> rfl)
      | (cases e <;> rfl)

/-! ## Case orchestration (`supervaizer/case.py`) -/

/-- Embeds `CaseNodeUpdate` (case.py).  `payload` (`Dict[str, Any]` in Python) is
abstracted to an opaque string blob and `cost` (a Python float used only in
sums and comparisons here) to an exact rational. -/
structure CaseNodeUpdate where
  index : Option Nat := none
  cost : Option Rat := none
  name : Option String := none
  payload : Option String := none
  is_final : Bool := false
  question : Option String := none
deriving DecidableEq, Repr

/-- Embeds `CaseNoteType` (case.py). -/
inductive CaseNoteType where
  | chat
  | trigger
  | notification
  | validation
  | delivery
  | error
  | warning
  | info
deriving DecidableEq, Repr

/-- Embeds `CaseNode` (case.py). -/
structure CaseNode where
  name : String
  description : String
  type : CaseNoteType
deriving DecidableEq, Repr

/-- Embeds `Case` / `CaseModel` (case.py).  The non-owning `account` collaborator is
modelled by recording every `account.send_update_case` call in
`sent_updates`, in call order; `finished_at` (a wall-clock datetime) is an
abstract tick supplied by the caller of `close`. -/
structure Case where
  id : String
  job_id : String
  name : String
  description : String
  status : EntityStatus
  nodes : List CaseNode := []
  updates : List CaseNodeUpdate := []
  total_cost : Rat := 0
  final_delivery : Option String := none
  finished_at : Option Nat := none
  sent_updates : List CaseNodeUpdate := []
deriving DecidableEq, Repr

/-- Embeds `Case.calculated_cost` (case.py line 152): sum of update costs, a
missing cost counted as `0`. -/
def Case.calculated_cost (c : Case) : Rat :=
  (c.updates.map (fun u => u.cost.getD 0)).sum

/-- Embeds `Case.update` (case.py lines 155-158): overwrite the update's index with
`len(updates) + 1`, notify the Account, then append locally. -/
def Case.update (c : Case) (updateCaseNode : CaseNodeUpdate) : Case :=
  let u := { updateCaseNode with index := some (c.updates.length + 1) }
  { c with sent_updates := c.sent_updates ++ [u], updates := c.updates ++ [u] }

/-- Embeds `Case.human_input` (case.py lines 160-168): same index assignment,
notify, then append; `message` is only logged. -/
def Case.human_input (c : Case) (updateCaseNode : CaseNodeUpdate)
    (message : String) : Case :=
  let u := { updateCaseNode with index := some (c.updates.length + 1) }
  { c with sent_updates := c.sent_updates ++ [u], updates := c.updates ++ [u] }

/-- Embeds `Case.resume` (case.py lines 170-172): apply `INPUT_RECEIVED`; on a
`TransitionError` the exception propagates and the case is untouched. -/
def Case.resume (c : Case) : Case × Option TransitionError :=
  match handle_event c.status .input_received with
  | .error err => (c, some err)
  | .ok s => ({ c with status := s }, none)

/-- Embeds `Case.close` (case.py lines 174-201).  Python order is kept: the
`total_cost` assignment happens before the lifecycle transition (so it
survives a `TransitionError`), and the final update is built, the
delivery/timestamp fields set and the Account notified only after a
successful transition.  `if final_cost:` is Python truthiness: both `None`
and `0.0` fall back to `calculated_cost`. -/
def Case.close (c : Case) (case_result : String) (final_cost : Option Rat)
    (now : Nat) : Case × Option TransitionError :=
  let total : Rat :=
    match final_cost with
    | some fc => if fc = 0 then c.calculated_cost else fc
    | none => c.calculated_cost
  match handle_event c.status .successfully_done with
  | .error err => ({ c with total_cost := total }, some err)
  | .ok s =>
    let u : CaseNodeUpdate :=
      { index := some (c.updates.length + 1), payload := some case_result,
        is_final := true }
    let c2 : Case :=
      { c with
          total_cost := total
          status := s
          final_delivery := some case_result
          finished_at := some now
          sent_updates := c.sent_updates ++ [u] }
    (c2, none)

/-- Embeds `Case.start` (case.py lines 219-261): construct in `STOPPED`, then
immediately apply `START_WORK`; the Account start notification is external
and carries no state relevant to the claims. -/
def Case.start (case_id : String) (job_id : String) (name : String)
    (description : String) (nodes : List CaseNode) :
    Case × Option TransitionError :=
  let c : Case :=
    { id := case_id, job_id := job_id, name := name,
      description := description, status := .stopped, nodes := nodes }
  match handle_event c.status .start_work with
  | .error err => (c, some err)
  | .ok s => ({ c with status := s }, none)

/-- One observable mutating operation on a case's update log: `update` or
`human_input` (the two append sites in case.py). -/
inductive CaseOp where
  | upd (u : CaseNodeUpdate)
  | human (u : CaseNodeUpdate) (message : String)

/-- Run a sequence of append operations against a case. -/
def applyCaseOps (c : Case) : List CaseOp → Case
  | [] => c
  | .upd u :: ops => applyCaseOps (c.update u) ops
  | .human u m :: ops => applyCaseOps (c.human_input u m) ops

/-- The index invariant of the update log: entry `i` carries index `i + 1`. -/
def indexedFromOne (us : List CaseNodeUpdate) : Prop :=
  ∀ i (h : i < us.length), (us.get ⟨i, h⟩).index = some (i + 1)

theorem indexedFromOne_append (us : List CaseNodeUpdate) (x : CaseNodeUpdate)
    (hus : indexedFromOne us) (hx : x.index = some (us.length + 1)) :
    indexedFromOne (us ++ [x]) := by
  intro i h
  rcases Nat.lt_or_ge i us.length with hlt | hge
  · have heq : (us ++ [x]).get ⟨i, h⟩ = us.get ⟨i, hlt⟩ := by
      simp only [List.get_eq_getElem]
      exact List.getElem_append_left hlt
    rw [heq]
    exact hus i hlt
  · have hi : i = us.length := by
      have h2 : i < us.length + 1 := by simpa using h
      omega
    subst hi
    have heq : (us ++ [x]).get ⟨us.length, h⟩ = x := by
      simp only [List.get_eq_getElem]
      exact List.getElem_concat_length us x us.length rfl h
    rw [heq]
    exact hx

theorem applyCaseOps_indexed (ops : List CaseOp) (c : Case)
    (hc : indexedFromOne c.updates) :
    indexedFromOne (applyCaseOps c ops).updates := by
  induction ops generalizing c with
  | nil => exact hc
  | cons op ops ih =>
    cases op with
    | upd u =>
      exact ih (c.update u) (indexedFromOne_append _ _ hc rfl)
    | human u m =>
      exact ih (c.human_input u m) (indexedFromOne_append _ _ hc rfl)

/-- C4: for every case starting with an empty update log and every sequence
of appends through `update` or `human_input`, the i-th recorded update
(0-based) carries index `i + 1`, regardless of update content or any
caller-supplied index — indices are strictly increasing from 1, never
reused or reordered. -/
theorem case_update_indices (ops : List CaseOp) (c : Case)
    (h0 : c.updates = []) :
    ∀ i (h : i < (applyCaseOps c ops).updates.length),
      ((applyCaseOps c ops).updates.get ⟨i, h⟩).index = some (i + 1) := by
  have hc : indexedFromOne c.updates := by
    rw [h0]
    intro i h
    simp at h
  exact applyCaseOps_indexed ops c hc

/-- A concrete fresh case used by the closed witnesses. -/
def exampleCase : Case :=
  { id := "case-1", job_id := "job-1", name := "n", description := "d",
    status := .in_progress }

/-- Two appends, the first with a bogus caller-supplied index. -/
def exampleOps : List CaseOp :=
  [ .upd { index := some 99, cost := some 5 }
  , .human { payload := some "answer" } "msg" ]

/-- Witness for C4 at a concrete input: the second appended update has
index 2 even though the first carried a caller-supplied index 99. -/
theorem case_update_indices_witness :
    ((applyCaseOps exampleCase exampleOps).updates.get ⟨1, by decide⟩).index
      = some 2 :=
  case_update_indices exampleOps exampleCase rfl 1 (by decide)

/-- A concrete IN_PROGRESS case with one recorded update of cost 5, used by
the C8 counterexample and the closing witnesses. -/
def costCase : Case :=
  { id := "case-2", job_id := "job-1", name := "n", description := "d",
    status := .in_progress,
    updates := [{ index := some 1, cost := some 5 }] }

/-- C8 counterexample: with an explicit `final_cost = 0.0`, `close` does NOT
set `total_cost` to the given value — `if final_cost:` is false for `0.0`,
so `total_cost` falls back to the update-cost sum (5), refuting the claim
that a given `final_cost` of 0.0 is honored. -/
theorem case_close_zero_final_cost_counterexample :
    (costCase.close "done" (some 0) 7).1.total_cost = 5 ∧
    ¬ (costCase.close "done" (some 0) 7).1.total_cost = 0 := by
  have h5 : (costCase.close "done" (some 0) 7).1.total_cost = 5 := by
    simp [Case.close, costCase, handle_event, transition, Case.calculated_cost]
  refine ⟨h5, ?_⟩
  rw [h5]
  norm_num

/-- C8 (amended): for a case in IN_PROGRESS, `close(result, final_cost?)`
succeeds; `total_cost` becomes `final_cost` whenever it is given and
nonzero, and otherwise (absent or exactly 0.0, by Python truthiness of
`if final_cost:`) the sum of all recorded update costs with a missing cost
counted as 0; afterwards the status is COMPLETED, `final_delivery` equals
the result and a finished timestamp is set. -/
theorem case_close_spec (c : Case) (case_result : String)
    (final_cost : Option Rat) (now : Nat) (h : c.status = .in_progress) :
    ((c.close case_result final_cost now).2 = none) ∧
    (∀ fc, final_cost = some fc → fc ≠ 0 →
      (c.close case_result final_cost now).1.total_cost = fc) ∧
    ((final_cost = none ∨ final_cost = some 0) →
      (c.close case_result final_cost now).1.total_cost = c.calculated_cost) ∧
    ((c.close case_result final_cost now).1.status = .completed) ∧
    ((c.close case_result final_cost now).1.final_delivery = some case_result) ∧
    ((c.close case_result final_cost now).1.finished_at = some now) := by
  have hh : handle_event c.status .successfully_done = .ok .completed := by
    rw [h]; rfl
  refine ⟨?_, ?_, ?_, ?_, ?_, ?_⟩
  · simp [Case.close, hh]
  · intro fc hfc hne
    simp [Case.close, hh, hfc, hne]
  · intro hcase
    rcases hcase with h0 | h0 <;> simp [Case.close, hh, h0]
  · simp [Case.close, hh]
  · simp [Case.close, hh]
  · simp [Case.close, hh]

/-- Witness for the amended C8 at a concrete input: closing `costCase` with
no explicit final cost yields `total_cost = calculated_cost = 5` and status
COMPLETED. -/
theorem case_close_spec_witness :
    (costCase.close "done" none 7).1.total_cost = costCase.calculated_cost ∧
    (costCase.close "done" none 7).1.status = .completed ∧
    costCase.calculated_cost = 5 :=
  ⟨(case_close_spec costCase "done" none 7 rfl).2.2.1 (Or.inl rfl),
   (case_close_spec costCase "done" none 7 rfl).2.2.2.1,
   by simp [Case.calculated_cost, costCase]⟩

/-- C10: `close` never appends the final CaseNodeUpdate to the case's own
updates list — the log has the same length and contents after the call, in
both the success and the TransitionError branch; the `is_final` update,
carrying index `len(updates) + 1` and payload `result`, is only sent to the
Account collaborator. -/
theorem case_close_does_not_append (c : Case) (case_result : String)
    (final_cost : Option Rat) (now : Nat) :
    ((c.close case_result final_cost now).1.updates = c.updates) ∧
    (c.status = .in_progress →
      (c.close case_result final_cost now).1.sent_updates =
        c.sent_updates ++
          [{ index := some (c.updates.length + 1),
             payload := some case_result, is_final := true }]) := by
  constructor
  · cases hc : handle_event c.status .successfully_done with
    | error err => simp [Case.close, hc]
    | ok s => simp [Case.close, hc]
  · intro h
    have hh : handle_event c.status .successfully_done = .ok .completed := by
      rw [h]; rfl
    simp [Case.close, hh]

/-- Witness for C10 at a concrete input: closing `costCase` leaves its
one-element update log intact and sends exactly the final update to the
Account. -/
theorem case_close_does_not_append_witness :
    (costCase.close "done" (some 3) 7).1.updates = costCase.updates ∧
    (costCase.close "done" (some 3) 7).1.sent_updates =
      costCase.sent_updates ++
        [{ index := some 2, payload := some "done", is_final := true }] :=
  ⟨(case_close_does_not_append costCase "done" (some 3) 7).1,
   (case_close_does_not_append costCase "done" (some 3) 7).2 rfl⟩

/-! ## Job orchestration (`src/supervaizer/agent.py`) -/

/-- Embeds `JobContext` (job.py is not in the snapshot; the fields are those used
by agent.py and the tests).  `started_at` is an abstract tick. -/
structure JobContext where
  workspace_id : String
  job_id : String
  started_by : String
  started_at : Nat
  mission_id : String
  mission_name : String
  mission_context : Option String := none
  job_instructions : Option String := none
deriving DecidableEq, Repr

/-- Embeds `JobResponse` (job.py is not in the snapshot; the shape is fixed by its
constructor calls in agent.py): immutable record `{job_id, status, message,
payload, error?}`.  A captured exception is modelled by its string
rendering, a payload by an opaque string. -/
structure JobResponse where
  job_id : String
  status : EntityStatus
  message : String
  payload : Option String := none
  error : Option String := none
deriving DecidableEq, Repr

/-- Modelled from the spec: `Job` (job.py is not in the snapshot) owns an
ordered append-only sequence of structured responses plus optional decrypted
agent parameters; only the parts `Agent.job_start` reads are modelled. -/
structure Job where
  id : String
  status : EntityStatus := .stopped
  responses : List JobResponse := []
  agent_parameters : Option (List (String × String)) := none
deriving DecidableEq, Repr

/-- Modelled from the spec: `Job.add_response` appends to the append-only
response log (job.py is not in the snapshot). -/
def Job.add_response (j : Job) (r : JobResponse) : Job :=
  { j with responses := j.responses ++ [r] }

/-- Embeds `AgentMethod` (agent.py lines 51-129); static params and form-field
definitions are abstracted to strings because no claim inspects their
contents. -/
structure AgentMethod where
  name : String
  method : String
  params : Option (List (String × String)) := none
  fields : Option (List String) := none
  description : Option String := none
  is_async : Bool := false
deriving DecidableEq, Repr

/-- Embeds the `AgentMethods` registry shape (agent.py lines 213-218); `custom` is an
insertion-ordered association list mirroring the Python dict. -/
structure AgentMethods where
  job_start : AgentMethod
  job_stop : AgentMethod
  job_status : AgentMethod
  chat : Option AgentMethod := none
  custom : Option (List (String × AgentMethod)) := none
deriving DecidableEq, Repr

/-- The slice of `Agent` (agent.py lines 259-356) that `job_start` reads. -/
structure Agent where
  name : String
  id : String
  methods : AgentMethods
deriving DecidableEq, Repr

/-- A value of the merged kwargs dict handed to the dispatched callable. -/
inductive ParamValue where
  | str (s : String)
  | fieldsDict (d : List (String × String))
  | ctx (c : JobContext)
  | agentParams (p : Option (List (String × String)))
deriving DecidableEq, Repr

/-- Python dict union `d | {k: v}`: replace in place when the key exists,
append at the end otherwise. -/
def dictInsert (d : List (String × ParamValue)) (k : String) (v : ParamValue) :
    List (String × ParamValue) :=
  if (d.lookup k).isSome then
    d.map (fun p => if p.1 = k then (k, v) else p)
  else
    d ++ [(k, v)]

/-- The argument merge of agent.py lines 527-533: static params, then
`fields`, `context` and `agent_parameters` (later entries override on key
collision). -/
def mergedParams (action : AgentMethod) (job_fields : List (String × String))
    (context : JobContext) (agent_parameters : Option (List (String × String))) :
    List (String × ParamValue) :=
  dictInsert
    (dictInsert
      (dictInsert ((action.params.getD []).map (fun kv => (kv.1, ParamValue.str kv.2)))
        "fields" (.fieldsDict job_fields))
      "context" (.ctx context))
    "agent_parameters" (.agentParams agent_parameters)

/-- The synthetic pre-marker of agent.py lines 511-518. -/
def preMarker (job_id : String) : JobResponse :=
  { job_id := job_id, status := .in_progress,
    message := "Starting job execution" }

/-- The message of the `NotImplementedError` raised on the async path
(agent.py lines 540-542). -/
def notImplementedMsg : String :=
  "[Agent job_start] Async job execution is not implemented"

/-- The response synthesized by the exception handler of agent.py
lines 570-581: status FAILED, the error field carrying the failure. -/
def failedResponse (job_id : String) (e : String) : JobResponse :=
  { job_id := job_id, status := .failed,
    message := "Job execution failed: " ++ e, error := some e }

/-- Method resolution of agent.py lines 521-524: the `job_start` entry for
the default name, otherwise the named custom entry (a missing key is a
`KeyError`). -/
def resolveAction (methods : AgentMethods) (method_name : String) :
    Option AgentMethod :=
  if method_name = "job_start" then some methods.job_start
  else (methods.custom.getD []).lookup method_name

/-- Observable outcome of one `Agent.job_start` call: the job as mutated,
whether the Account event was sent, whether the external
`service_job_finished` hook ran, and the exception propagated to the
caller, if any. -/
structure JobStartTrace where
  job : Job
  event_sent : Bool
  finished_hook : Bool
  raised : Option String
deriving DecidableEq, Repr

/-- Embeds `Agent.job_start` (agent.py lines 479-583).  The dispatched callable is
external project code reached through a dotted-path import in `_execute`
(agent.py lines 464-477), so it is an oracle `execute` from the method
string and merged kwargs to either a structurally valid `JobResponse` or a
raised exception (`_execute` turns a wrong result shape into a raised
`TypeError`, also covered by the error case).  Note the async gate tests
`self.methods.job_start.is_async` — not the resolved action's flag — and
its `NotImplementedError` is raised inside the `try`, so it is recorded as
a FAILED response and re-raised. -/
def Agent.job_start (a : Agent) (job : Job)
    (job_fields : List (String × String)) (context : JobContext)
    (account_configured : Bool)
    (execute : String → List (String × ParamValue) → Except String JobResponse)
    (method_name : String) : JobStartTrace :=
  let job1 := job.add_response (preMarker job.id)
  match resolveAction a.methods method_name with
  | none =>
    { job := job1, event_sent := account_configured,
      finished_hook := false, raised := some "KeyError" }
  | some action =>
    let params := mergedParams action job_fields context job.agent_parameters
    if a.methods.job_start.is_async then
      { job := job1.add_response (failedResponse job.id notImplementedMsg),
        event_sent := account_configured, finished_hook := false,
        raised := some notImplementedMsg }
    else
      match execute action.method params with
      | .error e =>
        { job := job1.add_response (failedResponse job.id e),
          event_sent := account_configured, finished_hook := false,
          raised := some e }
      | .ok job_response =>
        if job_response.status = .completed ∨ job_response.status = .failed ∨
            job_response.status = .cancelled ∨
            job_response.status = .cancelling then
          { job := job1.add_response job_response,
            event_sent := account_configured, finished_hook := true,
            raised := none }
        else if job_response.status = .awaiting then
          { job := job1.add_response job_response,
            event_sent := account_configured, finished_hook := false,
            raised := none }
        else
          { job := job1, event_sent := account_configured,
            finished_hook := false, raised := none }

/-- C2: for every job and every dispatched method whose body raises during
job_start, the orchestrator appends exactly one synthesized FAILED response
with a non-null error capturing the failure (after the synthetic
IN_PROGRESS start marker), the job-finished hook does not run, and the
original exception is re-raised to the caller. -/
theorem job_start_failure_recorded_and_reraised (a : Agent) (job : Job)
    (job_fields : List (String × String)) (context : JobContext)
    (account_configured : Bool)
    (execute : String → List (String × ParamValue) → Except String JobResponse)
    (method_name : String) (action : AgentMethod) (e : String)
    (hres : resolveAction a.methods method_name = some action)
    (hasync : a.methods.job_start.is_async = false)
    (hexec : execute action.method
      (mergedParams action job_fields context job.agent_parameters) = .error e) :
    (a.job_start job job_fields context account_configured execute
        method_name).job.responses =
      job.responses ++ [preMarker job.id, failedResponse job.id e] ∧
    (failedResponse job.id e).status = .failed ∧
    (failedResponse job.id e).error = some e ∧
    (((a.job_start job job_fields context account_configured execute
        method_name).job.responses.drop job.responses.length).countP
      (fun r => decide (r.status = .failed))) = 1 ∧
    (a.job_start job job_fields context account_configured execute
        method_name).raised = some e ∧
    (a.job_start job job_fields context account_configured execute
        method_name).finished_hook = false := by
  have htrace : a.job_start job job_fields context account_configured execute
      method_name =
      { job := { job with responses :=
          job.responses ++ [preMarker job.id, failedResponse job.id e] },
        event_sent := account_configured, finished_hook := false,
        raised := some e } := by
    simp [Agent.job_start, hres, hasync, hexec, Job.add_response, preMarker]
  refine ⟨?_, rfl, rfl, ?_, ?_, ?_⟩ <;> rw [htrace]
  · have hdrop :
        ((job.responses ++ [preMarker job.id, failedResponse job.id e]).drop
          job.responses.length) = [preMarker job.id, failedResponse job.id e] :=
      List.drop_left job.responses _
    simp only [hdrop]
    simp [preMarker, failedResponse, List.countP_cons]

/-- A concrete synchronous registry and agent shared by the orchestration
witnesses. -/
def syncMethod : AgentMethod :=
  { name := "start", method := "control.job_start" }

/-- A custom descriptor flagged async while the job_start entry is not. -/
def asyncCustomMethod : AgentMethod :=
  { name := "custom", method := "control.custom", is_async := true }

/-- Agent whose job_start entry is synchronous and whose custom map carries
the async descriptor under key "m". -/
def exampleAgent : Agent :=
  { name := "agentName", id := "agent-1",
    methods :=
      { job_start := syncMethod, job_stop := syncMethod,
        job_status := syncMethod,
        custom := some [("m", asyncCustomMethod)] } }

/-- Concrete job and context for the orchestration witnesses. -/
def exampleJob : Job := { id := "job-1" }

/-- Concrete job context for the orchestration witnesses. -/
def exampleContext : JobContext :=
  { workspace_id := "ws", job_id := "job-1", started_by := "user",
    started_at := 0, mission_id := "mi", mission_name := "mn" }

/-- Witness for C2 at a concrete input: a body raising "boom" leaves the
job with the start marker plus exactly one FAILED response carrying the
error, and "boom" propagates. -/
theorem job_start_failure_recorded_and_reraised_witness :
    (exampleAgent.job_start exampleJob [] exampleContext true
        (fun _ _ => .error "boom") "job_start").job.responses =
      exampleJob.responses ++
        [preMarker "job-1", failedResponse "job-1" "boom"] ∧
    (failedResponse "job-1" "boom").status = .failed ∧
    (failedResponse "job-1" "boom").error = some "boom" ∧
    (((exampleAgent.job_start exampleJob [] exampleContext true
        (fun _ _ => .error "boom") "job_start").job.responses.drop
          exampleJob.responses.length).countP
      (fun r => decide (r.status = .failed))) = 1 ∧
    (exampleAgent.job_start exampleJob [] exampleContext true
        (fun _ _ => .error "boom") "job_start").raised = some "boom" ∧
    (exampleAgent.job_start exampleJob [] exampleContext true
        (fun _ _ => .error "boom") "job_start").finished_hook = false :=
  job_start_failure_recorded_and_reraised exampleAgent exampleJob []
    exampleContext true (fun _ _ => .error "boom") "job_start" syncMethod
    "boom" rfl rfl rfl

/-- C3: after a successful dispatch, the response status determines exactly
what happens: a terminal status (COMPLETED, FAILED, CANCELLED, CANCELLING)
is appended and the external job-finished hook runs; AWAITING is appended
without the hook; any other status appends nothing beyond the start marker
and the hook does not run (warning only). -/
theorem job_start_status_branching (a : Agent) (job : Job)
    (job_fields : List (String × String)) (context : JobContext)
    (account_configured : Bool)
    (execute : String → List (String × ParamValue) → Except String JobResponse)
    (method_name : String) (action : AgentMethod) (resp : JobResponse)
    (hres : resolveAction a.methods method_name = some action)
    (hasync : a.methods.job_start.is_async = false)
    (hexec : execute action.method
      (mergedParams action job_fields context job.agent_parameters) = .ok resp) :
    ((resp.status = .completed ∨ resp.status = .failed ∨
        resp.status = .cancelled ∨ resp.status = .cancelling) →
      (a.job_start job job_fields context account_configured execute
          method_name).job.responses =
        job.responses ++ [preMarker job.id, resp] ∧
      (a.job_start job job_fields context account_configured execute
          method_name).finished_hook = true ∧
      (a.job_start job job_fields context account_configured execute
          method_name).raised = none) ∧
    (resp.status = .awaiting →
      (a.job_start job job_fields context account_configured execute
          method_name).job.responses =
        job.responses ++ [preMarker job.id, resp] ∧
      (a.job_start job job_fields context account_configured execute
          method_name).finished_hook = false ∧
      (a.job_start job job_fields context account_configured execute
          method_name).raised = none) ∧
    (¬(resp.status = .completed ∨ resp.status = .failed ∨
        resp.status = .cancelled ∨ resp.status = .cancelling) →
      resp.status ≠ .awaiting →
      (a.job_start job job_fields context account_configured execute
          method_name).job.responses =
        job.responses ++ [preMarker job.id] ∧
      (a.job_start job job_fields context account_configured execute
          method_name).finished_hook = false ∧
      (a.job_start job job_fields context account_configured execute
          method_name).raised = none) := by
  refine ⟨fun hterm => ?_, fun hawait => ?_, fun hnterm hnawait => ?_⟩
  · have : a.job_start job job_fields context account_configured execute
        method_name =
        { job := { job with responses :=
            job.responses ++ [preMarker job.id, resp] },
          event_sent := account_configured, finished_hook := true,
          raised := none } := by
      simp [Agent.job_start, hres, hasync, hexec, Job.add_response, hterm]
    rw [this]
    exact ⟨rfl, rfl, rfl⟩
  · have : a.job_start job job_fields context account_configured execute
        method_name =
        { job := { job with responses :=
            job.responses ++ [preMarker job.id, resp] },
          event_sent := account_configured, finished_hook := false,
          raised := none } := by
      cases resp with
      | mk rid rstatus rmsg rpayload rerror =>
        cases rstatus <;> simp_all [Agent.job_start, Job.add_response]
    rw [this]
    exact ⟨rfl, rfl, rfl⟩
  · have : a.job_start job job_fields context account_configured execute
        method_name =
        { job := { job with responses :=
            job.responses ++ [preMarker job.id] },
          event_sent := account_configured, finished_hook := false,
          raised := none } := by
      cases resp with
      | mk rid rstatus rmsg rpayload rerror =>
        cases rstatus <;> simp_all [Agent.job_start, Job.add_response]
    rw [this]
    exact ⟨rfl, rfl, rfl⟩

/-- A concrete AWAITING response used by the C3 witness. -/
def awaitingResponse : JobResponse :=
  { job_id := "job-1", status := .awaiting, message := "waiting" }

/-- Witness for C3 at a concrete input: a dispatched method returning an
AWAITING response gets its response appended and the job-finished hook does
not fire. -/
theorem job_start_status_branching_witness :
    (exampleAgent.job_start exampleJob [] exampleContext true
        (fun _ _ => .ok awaitingResponse) "job_start").job.responses =
      exampleJob.responses ++ [preMarker "job-1", awaitingResponse] ∧
    (exampleAgent.job_start exampleJob [] exampleContext true
        (fun _ _ => .ok awaitingResponse) "job_start").finished_hook = false ∧
    (exampleAgent.job_start exampleJob [] exampleContext true
        (fun _ _ => .ok awaitingResponse) "job_start").raised = none :=
  (job_start_status_branching exampleAgent exampleJob [] exampleContext true
    (fun _ _ => .ok awaitingResponse) "job_start" syncMethod awaitingResponse
    rfl rfl rfl).2.1 rfl

/-- C9 counterexample: the async gate reads `self.methods.job_start.is_async`
(agent.py line 538), not the dispatched descriptor's flag.  Dispatching the
custom method "m", whose descriptor has `is_async = true`, while the
job_start entry is synchronous, raises nothing: the body runs and its
result is appended — refuting "every is_async=true descriptor fails fast
with NotImplemented when dispatched". -/
theorem job_start_async_flag_ignored_counterexample :
    asyncCustomMethod.is_async = true ∧
    resolveAction exampleAgent.methods "m" = some asyncCustomMethod ∧
    (exampleAgent.job_start exampleJob [] exampleContext true
        (fun _ _ => .ok awaitingResponse) "m").raised = none ∧
    (exampleAgent.job_start exampleJob [] exampleContext true
        (fun _ _ => .ok awaitingResponse) "m").job.responses =
      exampleJob.responses ++ [preMarker "job-1", awaitingResponse] :=
  ⟨rfl, rfl, rfl, rfl⟩

/-- C9 (amended): job_start fails fast with the NotImplementedError exactly
governed by the registry's job_start descriptor flag: whenever
`methods.job_start.is_async` is true — whichever entry is being dispatched,
and whatever the dispatched descriptor's own flag — the method body is
never invoked (the trace is independent of the dispatch oracle), the error
is recorded as one FAILED response after the start marker, and it is
re-raised to the caller; it is never a silent no-op. -/
theorem job_start_async_gate (a : Agent) (job : Job)
    (job_fields : List (String × String)) (context : JobContext)
    (account_configured : Bool)
    (execute execute2 :
      String → List (String × ParamValue) → Except String JobResponse)
    (method_name : String) (action : AgentMethod)
    (hres : resolveAction a.methods method_name = some action)
    (hasync : a.methods.job_start.is_async = true) :
    (a.job_start job job_fields context account_configured execute
        method_name).raised = some notImplementedMsg ∧
    (a.job_start job job_fields context account_configured execute
        method_name).job.responses =
      job.responses ++
        [preMarker job.id, failedResponse job.id notImplementedMsg] ∧
    (a.job_start job job_fields context account_configured execute
        method_name).finished_hook = false ∧
    a.job_start job job_fields context account_configured execute
        method_name =
      a.job_start job job_fields context account_configured execute2
        method_name := by
  have ht : ∀ ex : String → List (String × ParamValue) →
      Except String JobResponse,
      a.job_start job job_fields context account_configured ex method_name =
      { job := { job with responses := job.responses ++
          [preMarker job.id, failedResponse job.id notImplementedMsg] },
        event_sent := account_configured, finished_hook := false,
        raised := some notImplementedMsg } := by
    intro ex
    simp [Agent.job_start, hres, hasync, Job.add_response]
  refine ⟨?_, ?_, ?_, ?_⟩
  · rw [ht execute]
  · rw [ht execute]
  · rw [ht execute]
  · rw [ht execute, ht execute2]

/-- An agent whose job_start entry itself is flagged async. -/
def asyncStartMethod : AgentMethod :=
  { name := "start", method := "control.job_start", is_async := true }

/-- Registry slice for the async-gate witness. -/
def asyncStartAgent : Agent :=
  { name := "agentName", id := "agent-2",
    methods :=
      { job_start := asyncStartMethod, job_stop := syncMethod,
        job_status := syncMethod } }

/-- Witness for the amended C9 at a concrete input: with the job_start
entry flagged async, dispatch raises the NotImplementedError and the trace
does not depend on the dispatch oracle. -/
theorem job_start_async_gate_witness :
    (asyncStartAgent.job_start exampleJob [] exampleContext true
        (fun _ _ => .ok awaitingResponse) "job_start").raised =
      some notImplementedMsg ∧
    asyncStartAgent.job_start exampleJob [] exampleContext true
        (fun _ _ => .ok awaitingResponse) "job_start" =
      asyncStartAgent.job_start exampleJob [] exampleContext true
        (fun _ _ => .error "boom") "job_start" :=
  ⟨(job_start_async_gate asyncStartAgent exampleJob [] exampleContext true
      (fun _ _ => .ok awaitingResponse) (fun _ _ => .error "boom")
      "job_start" asyncStartMethod rfl rfl).1,
   (job_start_async_gate asyncStartAgent exampleJob [] exampleContext true
      (fun _ _ => .ok awaitingResponse) (fun _ _ => .error "boom")
      "job_start" asyncStartMethod rfl rfl).2.2.2⟩

/-! ## Method registry validation (`agent.py` lines 213-256) -/

/-- One character of the slug character class `[a-z0-9]`. -/
def isSlugChar (c : Char) : Bool := c.isLower || c.isDigit

/-- Split a character list on hyphens.  The result is never empty, and a
leading, trailing or doubled hyphen shows up as an empty chunk. -/
def splitHyphen : List Char → List (List Char)
  | [] => [[]]
  | c :: cs =>
    match splitHyphen cs with
    | [] => [[]]
    | r :: rs => if c = Char.ofNat 45 then [] :: r :: rs else (c :: r) :: rs

/-- The slug grammar `[a-z0-9]+(-[a-z0-9]+)*` itself: one or more nonempty
lowercase-alphanumeric chunks separated by single hyphens. -/
def isSlugGrammar (cs : List Char) : Bool :=
  (splitHyphen cs).all (fun chunk => !chunk.isEmpty && chunk.all isSlugChar)

/-- Embeds `re.match(r"^[a-z0-9]+(?:-[a-z0-9]+)*$", key)` of agent.py line 227
with Python semantics: `$` also matches just before one trailing newline,
so the call accepts the grammar itself OR the grammar followed by a single
final newline character. -/
def slugRegexAccepts (s : String) : Bool :=
  isSlugGrammar s.data ||
    (match s.data.getLast? with
     | some c => (c == Char.ofNat 10) && isSlugGrammar s.data.dropLast
     | none => false)

/-- The `ValueError`s raised by the validators of agent.py (surfaced by
pydantic as `ValidationError`); each carries the offending input and the
message text.  The Python messages quote the key; the quotes are dropped
here but the key itself is embedded unchanged. -/
inductive ValidationError where
  | invalid_slug (key : String) (message : String)
  | too_long (key : String) (message : String)
  | unknown_parameter (name : String)
deriving DecidableEq, Repr

/-- Message of the regex-rule violation (agent.py lines 228-233). -/
def slugErrorMessage (key : String) : String :=
  "Custom method key " ++ key ++ " is not a valid slug. " ++
    "Keys must contain only lowercase letters, numbers, and hyphens, " ++
    "and cannot start or end with a hyphen. " ++
    "Examples: backup, health-check, sync-data"

/-- Message of the length-rule violation (agent.py lines 236-239). -/
def lengthErrorMessage (key : String) : String :=
  "Custom method key " ++ key ++ " is too long (max 50 characters)"

/-- Embeds `AgentMethodsModel.validate_custom_method_keys` (agent.py 220-241):
walk the keys in insertion order; for each key the regex check comes first,
then the 50-character bound; the first violation raises. -/
def validate_custom_method_keys (keys : List String) :
    Option ValidationError :=
  match keys with
  | [] => none
  | k :: ks =>
    if slugRegexAccepts k = false then
      some (.invalid_slug k (slugErrorMessage k))
    else if 50 < k.length then
      some (.too_long k (lengthErrorMessage k))
    else
      validate_custom_method_keys ks

/-- Pydantic construction of `AgentMethods`: run the custom-key validator
over the keys; `custom=None` and `custom={}` both skip the loop
(`if value:` in agent.py line 224). -/
def mkAgentMethods (job_start : AgentMethod) (job_stop : AgentMethod)
    (job_status : AgentMethod) (chat : Option AgentMethod)
    (custom : Option (List (String × AgentMethod))) :
    Except ValidationError AgentMethods :=
  match validate_custom_method_keys ((custom.getD []).map Prod.fst) with
  | some err => .error err
  | none =>
    .ok { job_start := job_start, job_stop := job_stop,
          job_status := job_status, chat := chat, custom := custom }

theorem validate_custom_method_keys_none_iff (keys : List String) :
    validate_custom_method_keys keys = none ↔
      ∀ k ∈ keys, slugRegexAccepts k = true ∧ k.length ≤ 50 := by
  induction keys with
  | nil => simp [validate_custom_method_keys]
  | cons k ks ih =>
    by_cases h1 : slugRegexAccepts k = false
    · simp [validate_custom_method_keys, h1]
    · have h1t : slugRegexAccepts k = true := by
        cases hx : slugRegexAccepts k
        · exact absurd hx h1
        · rfl
      by_cases h2 : 50 < k.length
      · have hn : ¬ k.length ≤ 50 := by omega
        simp [validate_custom_method_keys, h1, h2, hn]
      · have hy : k.length ≤ 50 := by omega
        simp [validate_custom_method_keys, h1, h2, ih, h1t, hy]

theorem validate_custom_method_keys_some_spec (keys : List String)
    (err : ValidationError)
    (h : validate_custom_method_keys keys = some err) :
    (∃ k, k ∈ keys ∧ slugRegexAccepts k = false ∧
      err = .invalid_slug k (slugErrorMessage k)) ∨
    (∃ k, k ∈ keys ∧ slugRegexAccepts k = true ∧ 50 < k.length ∧
      err = .too_long k (lengthErrorMessage k)) := by
  induction keys with
  | nil => simp [validate_custom_method_keys] at h
  | cons k ks ih =>
    by_cases h1 : slugRegexAccepts k = false
    · simp [validate_custom_method_keys, h1] at h
      exact Or.inl ⟨k, by simp, h1, h.symm⟩
    · have h1t : slugRegexAccepts k = true := by
        cases hx : slugRegexAccepts k
        · exact absurd hx h1
        · rfl
      by_cases h2 : 50 < k.length
      · simp [validate_custom_method_keys, h1, h2] at h
        exact Or.inr ⟨k, by simp, h1t, h2, h.symm⟩
      · simp [validate_custom_method_keys, h1, h2] at h
        rcases ih h with ⟨k2, hk2, hs, he⟩ | ⟨k2, hk2, hs, hl, he⟩
        · exact Or.inl ⟨k2, by simp [hk2], hs, he⟩
        · exact Or.inr ⟨k2, by simp [hk2], hs, hl, he⟩

/-- C7 counterexample: the key "a\n" does NOT match the slug grammar
`[a-z0-9]+(-[a-z0-9]+)*`, yet construction succeeds — Python's `$` anchor
in `re.match` also matches just before one trailing newline, so the
validator accepts it.  This refutes "construction succeeds exactly when
every key matches the slug grammar". -/
theorem custom_key_trailing_newline_counterexample :
    (∃ m, mkAgentMethods syncMethod syncMethod syncMethod none
      (some [("a\n", syncMethod)]) = .ok m) ∧
    isSlugGrammar ("a\n".data) = false ∧
    ("a\n".length ≤ 50) :=
  ⟨⟨_, rfl⟩, rfl, by decide⟩

/-- C7 (amended): constructing the registry succeeds exactly when every
custom key passes the code's acceptance test — the slug grammar
`[a-z0-9]+(-[a-z0-9]+)*` optionally followed by one trailing newline
(Python regex `$` semantics) — and has length at most 50 (missing or empty
custom maps accepted); on any violation construction fails with a
ValidationError whose payload names the offending key and the rule broken
(regex first, then length), the key embedded in the message. -/
theorem agent_methods_custom_key_validation (job_start : AgentMethod)
    (job_stop : AgentMethod) (job_status : AgentMethod)
    (chat : Option AgentMethod)
    (custom : Option (List (String × AgentMethod))) :
    ((∃ m, mkAgentMethods job_start job_stop job_status chat custom = .ok m)
      ↔ ∀ k ∈ (custom.getD []).map Prod.fst,
          slugRegexAccepts k = true ∧ k.length ≤ 50) ∧
    (∀ err,
      mkAgentMethods job_start job_stop job_status chat custom = .error err →
      (∃ k, k ∈ (custom.getD []).map Prod.fst ∧ slugRegexAccepts k = false ∧
        err = .invalid_slug k (slugErrorMessage k)) ∨
      (∃ k, k ∈ (custom.getD []).map Prod.fst ∧ slugRegexAccepts k = true ∧
        50 < k.length ∧ err = .too_long k (lengthErrorMessage k))) := by
  cases hv : validate_custom_method_keys ((custom.getD []).map Prod.fst) with
  | none =>
    refine ⟨⟨fun _ => (validate_custom_method_keys_none_iff _).mp hv,
      fun _ => ⟨{ job_start := job_start, job_stop := job_stop,
                  job_status := job_status, chat := chat, custom := custom },
        by simp [mkAgentMethods, hv]⟩⟩, fun err herr => ?_⟩
    simp [mkAgentMethods, hv] at herr
  | some e =>
    refine ⟨⟨fun hok => ?_, fun hall => ?_⟩, fun err herr => ?_⟩
    · rcases hok with ⟨m, hm⟩
      simp [mkAgentMethods, hv] at hm
    · have hnone := (validate_custom_method_keys_none_iff _).mpr hall
      rw [hv] at hnone
      exact absurd hnone (by simp)
    · have he : e = err := by
        simpa [mkAgentMethods, hv] using herr
      subst he
      exact validate_custom_method_keys_some_spec _ e hv

/-- A valid custom map for the C7 witness. -/
def validCustomMap : List (String × AgentMethod) :=
  [("health-check", syncMethod), ("a", syncMethod), ("method-1", syncMethod)]

/-- Witness for the amended C7 at a concrete input: a registry with the
spec's accepted example keys constructs successfully. -/
theorem agent_methods_custom_key_validation_witness :
    ∃ m, mkAgentMethods syncMethod syncMethod syncMethod none
      (some validCustomMap) = .ok m :=
  (agent_methods_custom_key_validation syncMethod syncMethod syncMethod none
    (some validCustomMap)).1.mpr (by decide)

/-! ## Parameter Vault (spec section 4.6; parameter.py, server.py and
common.py are not in the snapshot) -/

/-- Modelled from the spec: a parameter definition `{name, value,
description?, is_environment}` (spec section 3; parameter.py is missing). -/
structure Parameter where
  name : String
  value : Option String := none
  description : Option String := none
  is_environment : Bool := false
deriving DecidableEq, Repr

/-- One decrypted wire record `{name, value, is_environment}` (spec
section 6). -/
structure ParameterUpdateRecord where
  name : String
  value : String
  is_environment : Bool
deriving DecidableEq, Repr

/-- Embeds `os.environ[k] = v`: overwrite in place or append. -/
def envInsert (env : List (String × String)) (k : String) (v : String) :
    List (String × String) :=
  if (env.lookup k).isSome then
    env.map (fun p => if p.1 = k then (k, v) else p)
  else
    env ++ [(k, v)]

/-- Modelled from the spec: `ParametersSetup.update_values_from_server`
(parameter.py is missing; spec section 4.6): walk the records in sequence;
each record either updates the value of the definition that already carries
its name, or the whole call fails with ValidationError when the name is not
already present (no implicit creation) — a failed call produces no updated
definitions, so the caller keeps the set it held before.  Records flagged
`is_environment` also write the value into the environment overlay. -/
def update_values_from_server (definitions : List (String × Parameter))
    (env : List (String × String)) :
    List ParameterUpdateRecord →
      Except ValidationError
        (List (String × Parameter) × List (String × String))
  | [] => .ok (definitions, env)
  | r :: rs =>
    if (definitions.lookup r.name).isSome then
      update_values_from_server
        (definitions.map (fun p =>
          if p.1 = r.name then (p.1, { p.2 with value := some r.value })
          else p))
        (if r.is_environment then envInsert env r.name r.value else env)
        rs
    else
      .error (.unknown_parameter r.name)

/-- Embeds `Agent.update_parameters_from_server` (agent.py lines 454-462): a
non-empty encrypted payload and a configured parameters_setup are both
required, otherwise the call only logs; decryption and the JSON parse
(server.py / json are external) are an oracle delivering the decrypted
records. -/
def update_parameters_from_server
    (parameters_setup : Option (List (String × Parameter)))
    (env : List (String × String)) (encrypted : Option String)
    (decrypt_parse : String → List ParameterUpdateRecord) :
    Except ValidationError
      (Option (List (String × Parameter)) × List (String × String)) :=
  match encrypted, parameters_setup with
  | some enc, some defs =>
    match update_values_from_server defs env (decrypt_parse enc) with
    | .ok (defs2, env2) => .ok (some defs2, env2)
    | .error e => .error e
  | _, _ => .ok (parameters_setup, env)

theorem lookup_cons_unfold {β : Type} (n : String) (x : String × β)
    (xs : List (String × β)) :
    List.lookup n (x :: xs) =
      match n == x.1 with
      | true => some x.2
      | false => List.lookup n xs := by
  cases x
  rfl

theorem lookup_map_value_update (d : List (String × Parameter)) (k : String)
    (v : String) (n : String) :
    ((d.map (fun p =>
        if p.1 = k then (p.1, { p.2 with value := some v }) else p)).lookup n)
      = none ↔ d.lookup n = none := by
  induction d with
  | nil => simp
  | cons p ps ih =>
    have hfst : (if p.1 = k then (p.1, { p.2 with value := some v })
        else p).1 = p.1 := by
      by_cases hpk : p.1 = k <;> simp [hpk]
    rw [List.map_cons, lookup_cons_unfold, lookup_cons_unfold, hfst]
    cases hnp : n == p.1
    · simpa using ih
    · simp

theorem update_values_unknown_name (records : List ParameterUpdateRecord)
    (r : ParameterUpdateRecord) (hr : r ∈ records) :
    ∀ definitions env, definitions.lookup r.name = none →
      ∃ err, update_values_from_server definitions env records
        = .error err := by
  induction records with
  | nil => cases hr
  | cons q qs ih =>
    intro definitions env hnone
    by_cases hlk : (definitions.lookup q.name).isSome
    · rcases List.mem_cons.mp hr with hq | hq
      · subst hq
        rw [hnone] at hlk
        simp at hlk
      · have hstep := ih hq
          (definitions.map (fun p =>
            if p.1 = q.name then (p.1, { p.2 with value := some q.value })
            else p))
          (if q.is_environment then envInsert env q.name q.value else env)
          ((lookup_map_value_update definitions q.name q.value r.name).mpr
            hnone)
        rcases hstep with ⟨err, herr⟩
        refine ⟨err, ?_⟩
        simp [update_values_from_server, hlk]
        exact herr
    · exact ⟨.unknown_parameter q.name,
        by simp [update_values_from_server, hlk]⟩

/-- C5: when the decrypted remote parameter-update payload contains a
record whose name is not already among the agent's parameter definitions,
the update fails with a ValidationError and no updated parameter set is
produced — the agent keeps the definitions (and values) it held before the
call, with no implicit creation and no partial mutation surviving the
failure. -/
theorem remote_update_rejects_unknown_names
    (defs : List (String × Parameter)) (env : List (String × String))
    (enc : String) (decrypt_parse : String → List ParameterUpdateRecord)
    (r : ParameterUpdateRecord) (hr : r ∈ decrypt_parse enc)
    (hnone : defs.lookup r.name = none) :
    ∃ err, update_parameters_from_server (some defs) env (some enc)
      decrypt_parse = .error err := by
  rcases update_values_unknown_name (decrypt_parse enc) r hr defs env hnone
    with ⟨err, herr⟩
  exact ⟨err, by simp [update_parameters_from_server, herr]⟩

/-- The first spec-scenario parameter definition. -/
def parameter1Def : Parameter := { name := "parameter1", value := some "value1" }

/-- The second spec-scenario parameter definition. -/
def parameter2Def : Parameter :=
  { name := "parameter2", value := some "value2",
    description := some "desc2" }

/-- The spec scenario parameter set `{parameter1, parameter2}`. -/
def exampleDefinitions : List (String × Parameter) :=
  [("parameter1", parameter1Def), ("parameter2", parameter2Def)]

/-- The spec scenario invalid payload record. -/
def invalidRecord : ParameterUpdateRecord :=
  { name := "invalid_parameter", value := "x", is_environment := false }

/-- Witness for C5 at a concrete input: with parameters
`{parameter1, parameter2}` a payload naming `invalid_parameter` fails. -/
theorem remote_update_rejects_unknown_names_witness :
    ∃ err, update_parameters_from_server (some exampleDefinitions) []
      (some "blob") (fun _ => [invalidRecord]) = .error err :=
  remote_update_rejects_unknown_names exampleDefinitions [] "blob"
    (fun _ => [invalidRecord]) invalidRecord (by simp) (by rfl)

/-! ## Encryption gateway (spec section 4.6; common.py / server.py are not
in the snapshot) -/

/-- A hash algorithm choice inside the OAEP configuration. -/
inductive OaepHash where
  | sha256
  | other (name : String)
deriving DecidableEq, Repr

/-- OAEP padding configuration: the mask-generation function's hash and
the digest hash, which must match exactly between the encrypt and decrypt
sides (the wire-compatibility contract of spec section 4.6). -/
structure OaepPadding where
  mgf_hash : OaepHash
  digest_hash : OaepHash
deriving DecidableEq, Repr

/-- Modelled from the spec: the asymmetric keypair owned by the hosting
server (server.py is missing); `pair_id` identifies the pair shared by the
public and private halves. -/
structure RsaKeyPair where
  pair_id : Nat
deriving DecidableEq, Repr

/-- Modelled from the spec: ciphertext produced by `encrypt_value`
(common.py is missing): opaque bytes bound to the producing keypair and
the padding configuration used. -/
structure EncryptedValue where
  payload : String
  key_id : Nat
  padding : OaepPadding
deriving DecidableEq, Repr

/-- OAEP with SHA-256 for both mask generation and digest. -/
def oaepSha256 : OaepPadding := { mgf_hash := .sha256, digest_hash := .sha256 }

/-- Modelled from the spec: `encrypt_value(text, public_key)` (common.py is
missing): encrypt under the server's public key with OAEP/MGF1-SHA256 and
SHA-256 digest. -/
def encrypt_value (s : String) (public_key : RsaKeyPair) : EncryptedValue :=
  { payload := s, key_id := public_key.pair_id, padding := oaepSha256 }

/-- Modelled from the spec: `decrypt_value(data, private_key)` (common.py
is missing): decryption recovers the plaintext exactly when the private key
belongs to the producing pair and the OAEP configuration matches; any
mismatch raises in the crypto layer. -/
def decrypt_value (c : EncryptedValue) (private_key : RsaKeyPair) :
    Except String String :=
  if c.key_id = private_key.pair_id ∧ c.padding = oaepSha256 then .ok c.payload
  else .error "decryption failed"

/-- C6: for every string s, decrypting the encryption of s with the same
keypair returns s exactly, both sides using OAEP with SHA-256 for both the
mask-generation function and the digest. -/
theorem encrypt_decrypt_roundtrip (s : String) (kp : RsaKeyPair) :
    decrypt_value (encrypt_value s kp) kp = .ok s ∧
    (encrypt_value s kp).padding.mgf_hash = .sha256 ∧
    (encrypt_value s kp).padding.digest_hash = .sha256 := by
  refine ⟨?_, rfl, rfl⟩
  simp [encrypt_value, decrypt_value]
